import Mathlib

/-!
Verification of the MuToXGuard toxicity-detection core (src/app_simple.py).

The Python program loads two serialized artifacts (a fitted TF-IDF
vectorizer and a fitted logistic-regression model), detects the language of
a user-supplied text, scores the text for toxicity, and renders the result.
We shallowly embed the logical core:

* the model and vectorizer are opaque artifacts, modelled as records of
  functions; their operations are fallible in Python (they may raise), so
  they return `Except String _` here, with the `String` standing for the
  raised exception;
* floating-point probabilities are modelled as exact rationals `ℚ` (the
  thresholds 0.8 and 0.5 become 8/10 and 5/10; all comparisons in the
  source are ordinary numeric comparisons, preserved exactly);
* raising an exception is `Except.error`, catching is pattern matching,
  and Streamlit's `st.stop()` is modelled by short-circuiting the app run.
-/

namespace MuToXGuard

/-- A verdict produced by `analyze_text` (the Python dict with keys
`is_toxic`, `confidence`, `severity`; `severity` is one of the strings
"LOW", "MEDIUM", "HIGH"). -/
structure Verdict where
  is_toxic : Bool
  confidence : ℚ
  severity : String
deriving DecidableEq, Repr

/-- The fitted vectorizer artifact: `transform` embeds
`vectorizer.transform([text])`, producing the feature vector `X` (of
abstract type `Vec`), or raising. -/
structure Vectorizer (Vec : Type) where
  transform : String → Except String Vec

/-- The fitted classifier artifact: `predict_proba` embeds the composite
`model.predict_proba(X)[0][1]` (probability mass of the toxic class) and
`predict` embeds `model.predict(X)[0]` (the predicted class label, an
integer), each possibly raising. -/
structure Model (Vec : Type) where
  predict_proba : Vec → Except String ℚ
  predict : Vec → Except String ℤ

/-- The severity expression of src/app_simple.py line 115:
`'HIGH' if prob > 0.8 else 'MEDIUM' if prob > 0.5 else 'LOW'`. -/
def severityOf (prob : ℚ) : String :=
  if prob > 8/10 then "HIGH" else if prob > 5/10 then "MEDIUM" else "LOW"

/-- `analyze_text` of src/app_simple.py lines 103-116: vectorize, read the
toxic-class probability, read the predicted label, and assemble the result
dict.  `bool(pred)` on the integer label is `pred != 0`. -/
def analyze_text {Vec : Type} (text : String) (model : Model Vec)
    (vectorizer : Vectorizer Vec) : Except String Verdict := do
  let X ← vectorizer.transform text
  let prob ← model.predict_proba X
  let pred ← model.predict X
  pure { is_toxic := pred != 0, confidence := prob, severity := severityOf prob }

/-- One entry of the list returned by `langdetect.detect_langs`: a language
code and its probability. -/
structure LangProb where
  lang : String
  prob : ℚ
deriving DecidableEq, Repr

/-- `detect_language` of src/app_simple.py lines 93-101.  The third-party
`detect_langs` is a parameter; it may raise (`Except.error`).  The Python
body returns `langs[0].lang.upper()` when the returned list is non-empty
and falls through to `"UNKNOWN"` otherwise; the bare `except: pass` maps
every raised exception to the same fall-through. -/
def detect_language (detect_langs : String → Except Unit (List LangProb))
    (text : String) : String :=
  match detect_langs text with
  | .ok (l :: _) => l.lang.toUpper
  | .ok [] => "UNKNOWN"
  | .error _ => "UNKNOWN"

/-- The classifier artifact path of src/app_simple.py line 75. -/
def model_path (base : String) : String :=
  base ++ "/models/classical/logreg_toxic_only.joblib"

/-- The vectorizer artifact path of src/app_simple.py line 76. -/
def vectorizer_path (base : String) : String :=
  base ++ "/models/classical/tfidf_vectorizer.joblib"

/-- `load_model` of src/app_simple.py lines 72-91 (without the debug
prints).  `joblib_load` embeds `joblib.load`, returning an opaque loaded
object of type `Obj` or raising; the `try/except` around the body ends in a
bare `raise`, so every failure is re-raised unchanged. -/
def load_model {Obj : Type} (joblib_load : String → Except String Obj)
    (base : String) : Except String (Obj × Obj) := do
  let model ← joblib_load (model_path base)
  let vectorizer ← joblib_load (vectorizer_path base)
  pure (model, vectorizer)

/-- Splitting a character list into maximal whitespace-free tokens, the
accumulator holding the (reversed) token being read.  This is the behavior
of Python's argumentless `str.split`: runs of whitespace separate tokens
and produce no empty pieces. -/
def wordsAux : List Char → List Char → List (List Char)
  | [], acc => if acc = [] then [] else [acc.reverse]
  | c :: cs, acc =>
    if c.isWhitespace then
      if acc = [] then wordsAux cs [] else acc.reverse :: wordsAux cs []
    else wordsAux cs (c :: acc)

/-- Word count of src/app_simple.py line 223: `len(text_input.split())`. -/
def wordCount (t : String) : Nat := (wordsAux t.data []).length

/-- Python's `str.strip()`: the character list of the text with leading and
trailing whitespace removed.  The analysis guard on line 179 tests its
truthiness, i.e. non-emptiness. -/
def strip (t : String) : List Char :=
  ((t.data.dropWhile Char.isWhitespace).reverse.dropWhile Char.isWhitespace).reverse

/-- Character count of src/app_simple.py line 224: `len(text_input)`. -/
def charCount (t : String) : Nat := t.length

/-- `any(c.isupper() for c in text_input)` of src/app_simple.py line 231. -/
def hasCaps (t : String) : Bool := t.data.any Char.isUpper

/-- The fixed special-character class of the regex on line 234. -/
def specialChars : List Char := "!?@#$%^&*".data

/-- `bool(re.search(r'[!?@#$%^&*]', text_input))` of line 234: some
character of the text belongs to the fixed class. -/
def hasSpecial (t : String) : Bool := t.data.any (fun c => specialChars.contains c)

/-- The four derived text statistics displayed by lines 221-235. -/
structure TextStats where
  words : Nat
  chars : Nat
  has_caps : Bool
  has_special : Bool
deriving DecidableEq, Repr

/-- Assembles the text statistics of src/app_simple.py lines 223-234. -/
def textStats (t : String) : TextStats :=
  { words := wordCount t, chars := charCount t,
    has_caps := hasCaps t, has_special := hasSpecial t }

/-- The main result box chosen by src/app_simple.py lines 191-198: the red
"TOXIC CONTENT DETECTED" box, the yellow "POTENTIALLY TOXIC" warning box
(each interpolating `result["severity"]`), or the green "SAFE CONTENT"
box. -/
inductive MainBox
  | toxicHigh (severity : String)
  | warningBox (severity : String)
  | safeBox
deriving DecidableEq, Repr

/-- The branch of src/app_simple.py lines 192-198 selecting the main result
box from the verdict. -/
def mainBox (result : Verdict) : MainBox :=
  if result.is_toxic then
    if result.severity = "HIGH" then .toxicHigh result.severity
    else .warningBox result.severity
  else .safeBox

/-- The observable outcome of one run of the script body: the app halted at
startup because `load_model` raised (lines 126-128, `st.stop()`), ran the
analysis block (lines 179-250), showed the empty-input warning (lines
252-253), or did nothing. -/
inductive UIOutcome
  | haltedLoad (err : String)
  | analysis (lang : String) (result : Except String Verdict) (stats : TextStats)
  | warnEmpty
  | idle
deriving Repr

/-- One run of the script body of src/app_simple.py: load the artifacts
(halting via `st.stop()` on failure, lines 123-128), then dispatch on the
analyze button and the stripped input (lines 179, 252): a non-blank input
runs language detection, scoring and the statistics; a blank one shows the
warning.  `asModel` and `asVectorizer` embed Python's dynamic attribute
access on the two loaded objects. -/
def run_app {Obj Vec : Type} (joblib_load : String → Except String Obj)
    (base : String) (asModel : Obj → Model Vec) (asVectorizer : Obj → Vectorizer Vec)
    (detect_langs : String → Except Unit (List LangProb))
    (analyze_btn : Bool) (text_input : String) : UIOutcome :=
  match load_model joblib_load base with
  | .error e => .haltedLoad e
  | .ok (modelObj, vectorizerObj) =>
    if analyze_btn && (strip text_input != []) then
      .analysis (detect_language detect_langs text_input)
        (analyze_text text_input (asModel modelObj) (asVectorizer vectorizerObj))
        (textStats text_input)
    else if analyze_btn then .warnEmpty
    else .idle

/-- The verdict component of an outcome, when the analysis block ran. -/
def outcomeVerdict : UIOutcome → Option (Except String Verdict)
  | .analysis _ result _ => some result
  | _ => none

/-- The process-wide artifact cache installed by `@st.cache_resource` on
`load_model`: `none` before the first successful load, `some` thereafter. -/
def ArtifactCache (Obj : Type) : Type := Option (Obj × Obj)

/-- The memoized access to `load_model` provided by `@st.cache_resource`:
a cached pair is returned as-is; otherwise `load_model` runs, a success is
cached, and a failure leaves the cache empty (Streamlit does not cache
exceptions). -/
def get_artifacts {Obj : Type} (joblib_load : String → Except String Obj)
    (base : String) (cache : ArtifactCache Obj) :
    Except String ((Obj × Obj) × ArtifactCache Obj) :=
  match cache with
  | some a => .ok (a, some a)
  | none =>
    match load_model joblib_load base with
    | .ok a => .ok (a, some a)
    | .error e => .error e

/-- One scoring request against the process state: fetch the cached
artifacts and run `analyze_text`, returning the per-request result together
with the cache afterwards.  A raised `ScoringError` propagates in the
result component; the cache component is what survives for the next
request. -/
def handle_request {Obj Vec : Type} (joblib_load : String → Except String Obj)
    (base : String) (asModel : Obj → Model Vec) (asVectorizer : Obj → Vectorizer Vec)
    (text : String) (cache : ArtifactCache Obj) :
    Except String Verdict × ArtifactCache Obj :=
  match get_artifacts joblib_load base cache with
  | .error e => (.error e, cache)
  | .ok ((modelObj, vectorizerObj), cacheAfter) =>
    (analyze_text text (asModel modelObj) (asVectorizer vectorizerObj), cacheAfter)

/-! ## Helper lemmas and concrete instantiations -/

/-- A degenerate one-point model whose probability and label outputs are
constant, used to instantiate universally quantified theorems. -/
def unitModel (p : ℚ) (label : ℤ) : Model Unit :=
  { predict_proba := fun _ => .ok p, predict := fun _ => .ok label }

/-- A degenerate vectorizer mapping every text to the one-point feature
vector. -/
def unitVectorizer : Vectorizer Unit :=
  { transform := fun _ => .ok () }

theorem severityOf_spec (p : ℚ) :
    (severityOf p = "HIGH" ↔ 8/10 < p) ∧
    (severityOf p = "MEDIUM" ↔ (5/10 < p ∧ p ≤ 8/10)) ∧
    (severityOf p = "LOW" ↔ p ≤ 5/10) := by
  unfold severityOf
  split_ifs with h1 h2
  · exact ⟨⟨fun _ => h1, fun _ => rfl⟩,
      ⟨fun h => absurd h (by decide), fun h => absurd h.2 (by linarith)⟩,
      ⟨fun h => absurd h (by decide), fun h => absurd h (by linarith)⟩⟩
  · exact ⟨⟨fun h => absurd h (by decide), fun h => absurd h h1⟩,
      ⟨fun _ => ⟨h2, by linarith [not_lt.mp h1]⟩, fun _ => rfl⟩,
      ⟨fun h => absurd h (by decide), fun h => absurd h (by linarith)⟩⟩
  · exact ⟨⟨fun h => absurd h (by decide), fun h => absurd h h1⟩,
      ⟨fun h => absurd h (by decide), fun h => absurd h.1 h2⟩,
      ⟨fun _ => not_lt.mp h2, fun _ => rfl⟩⟩

theorem analyze_text_transform_error {Vec : Type} (m : Model Vec)
    (v : Vectorizer Vec) (t : String) (e : String)
    (hX : v.transform t = .error e) : analyze_text t m v = .error e := by
  unfold analyze_text
  rw [hX]
  rfl

theorem analyze_text_proba_error {Vec : Type} (m : Model Vec)
    (v : Vectorizer Vec) (t : String) (X : Vec) (e : String)
    (hX : v.transform t = .ok X) (hp : m.predict_proba X = .error e) :
    analyze_text t m v = .error e := by
  unfold analyze_text
  rw [hX]
  show (m.predict_proba X).bind _ = _
  rw [hp]
  rfl

theorem analyze_text_predict_error {Vec : Type} (m : Model Vec)
    (v : Vectorizer Vec) (t : String) (X : Vec) (p : ℚ) (e : String)
    (hX : v.transform t = .ok X) (hp : m.predict_proba X = .ok p)
    (hpred : m.predict X = .error e) : analyze_text t m v = .error e := by
  unfold analyze_text
  rw [hX]
  show (m.predict_proba X).bind _ = _
  rw [hp]
  show (m.predict X).bind _ = _
  rw [hpred]
  rfl

theorem analyze_text_ok_of {Vec : Type} (m : Model Vec) (v : Vectorizer Vec)
    (t : String) (X : Vec) (p : ℚ) (pred : ℤ) (hX : v.transform t = .ok X)
    (hp : m.predict_proba X = .ok p) (hpred : m.predict X = .ok pred) :
    analyze_text t m v = .ok ⟨pred != 0, p, severityOf p⟩ := by
  unfold analyze_text
  rw [hX]
  show (m.predict_proba X).bind _ = _
  rw [hp]
  show (m.predict X).bind _ = _
  rw [hpred]
  rfl

theorem analyze_text_ok {Vec : Type} (m : Model Vec) (v : Vectorizer Vec)
    (t : String) (verdict : Verdict) (h : analyze_text t m v = .ok verdict) :
    ∃ X p pred, v.transform t = .ok X ∧ m.predict_proba X = .ok p ∧
      m.predict X = .ok pred ∧ verdict = ⟨pred != 0, p, severityOf p⟩ := by
  rcases hX : v.transform t with e | X
  · rw [analyze_text_transform_error m v t e hX] at h
    exact absurd h (by simp)
  rcases hp : m.predict_proba X with e | p
  · rw [analyze_text_proba_error m v t X e hX hp] at h
    exact absurd h (by simp)
  rcases hpred : m.predict X with e | pred
  · rw [analyze_text_predict_error m v t X p e hX hp hpred] at h
    exact absurd h (by simp)
  · rw [analyze_text_ok_of m v t X p pred hX hp hpred] at h
    exact ⟨X, p, pred, rfl, hp, hpred, (Except.ok.inj h).symm⟩

/-! ## The claims -/

/-- C1: for every confidence value produced by the scorer, the severity
bucket is the pure total function `severityOf` of the confidence, with
strict-inequality breakpoints: HIGH iff confidence > 8/10, MEDIUM iff
5/10 < confidence ≤ 8/10, LOW iff confidence ≤ 5/10; in particular a
confidence of exactly 8/10 yields MEDIUM and exactly 5/10 yields LOW. -/
theorem c1_severity_breakpoints {Vec : Type} (m : Model Vec) (v : Vectorizer Vec)
    (t : String) (verdict : Verdict) (h : analyze_text t m v = .ok verdict) :
    verdict.severity = severityOf verdict.confidence ∧
    (verdict.severity = "HIGH" ↔ 8/10 < verdict.confidence) ∧
    (verdict.severity = "MEDIUM" ↔ (5/10 < verdict.confidence ∧ verdict.confidence ≤ 8/10)) ∧
    (verdict.severity = "LOW" ↔ verdict.confidence ≤ 5/10) ∧
    severityOf (8/10) = "MEDIUM" ∧ severityOf (5/10) = "LOW" := by
  obtain ⟨X, p, pred, _, _, _, hv⟩ := analyze_text_ok m v t verdict h
  subst hv
  refine ⟨rfl, (severityOf_spec p).1, (severityOf_spec p).2.1, (severityOf_spec p).2.2,
    ?_, ?_⟩ <;> norm_num [severityOf]

/-- Witness for C1, at the constant model assigning probability 6/10. -/
theorem c1_severity_breakpoints_witness :
    (Verdict.mk ((1:ℤ) != 0) (6/10) (severityOf (6/10))).severity = "MEDIUM" :=
  ((c1_severity_breakpoints (unitModel (6/10) 1) unitVectorizer "hi"
      (Verdict.mk ((1:ℤ) != 0) (6/10) (severityOf (6/10))) rfl).2.2.1).2
    (by norm_num)

/-- C2: the verdict's `is_toxic` flag is the boolean of the model's own
predicted label (`model.predict`), independent of the probability returned
by `predict_proba`; consequently a verdict with `is_toxic = false` and
severity HIGH is possible, as is `is_toxic = true` with severity LOW. -/
theorem c2_is_toxic_is_model_label {Vec : Type} (m : Model Vec) (v : Vectorizer Vec)
    (t : String) (X : Vec) (p : ℚ) (pred : ℤ) (hX : v.transform t = .ok X)
    (hp : m.predict_proba X = .ok p) (hpred : m.predict X = .ok pred) :
    analyze_text t m v = .ok ⟨pred != 0, p, severityOf p⟩ ∧
    (∃ (m0 : Model Unit) (v0 : Vectorizer Unit) (t0 : String) (w : Verdict),
      analyze_text t0 m0 v0 = .ok w ∧ w.is_toxic = false ∧ w.severity = "HIGH") ∧
    (∃ (m1 : Model Unit) (v1 : Vectorizer Unit) (t1 : String) (w : Verdict),
      analyze_text t1 m1 v1 = .ok w ∧ w.is_toxic = true ∧ w.severity = "LOW") := by
  refine ⟨analyze_text_ok_of m v t X p pred hX hp hpred,
    ⟨unitModel (9/10) 0, unitVectorizer, "x", ⟨(0:ℤ) != 0, 9/10, severityOf (9/10)⟩,
      rfl, by decide, by norm_num [severityOf]⟩,
    ⟨unitModel (1/10) 1, unitVectorizer, "x", ⟨(1:ℤ) != 0, 1/10, severityOf (1/10)⟩,
      rfl, by decide, by norm_num [severityOf]⟩⟩

/-- Witness for C2, at a constant model whose label is 0 while its
probability is 9/10. -/
theorem c2_is_toxic_is_model_label_witness :
    analyze_text "x" (unitModel (9/10) 0) unitVectorizer =
      .ok ⟨(0:ℤ) != 0, 9/10, severityOf (9/10)⟩ :=
  (c2_is_toxic_is_model_label (unitModel (9/10) 0) unitVectorizer "x" () (9/10) 0
    rfl rfl rfl).1

/-- C3: the language detector is a total function (it never propagates an
exception): on every input it returns either the upper-cased code of the
head (most probable) entry of the detection result, or the sentinel
"UNKNOWN"; every internal detection failure maps to "UNKNOWN". -/
theorem c3_detect_language_total (d : String → Except Unit (List LangProb))
    (text : String) :
    (detect_language d text = "UNKNOWN" ∨
      ∃ l rest, d text = .ok (l :: rest) ∧ detect_language d text = l.lang.toUpper) ∧
    (∀ e, d text = .error e → detect_language d text = "UNKNOWN") ∧
    (d text = .ok [] → detect_language d text = "UNKNOWN") ∧
    (∀ l rest, d text = .ok (l :: rest) → detect_language d text = l.lang.toUpper) := by
  unfold detect_language
  rcases h : d text with e | ls
  · exact ⟨Or.inl rfl, fun _ _ => rfl, by simp, by simp⟩
  rcases ls with _ | ⟨l, rest⟩
  · exact ⟨Or.inl rfl, by simp, fun _ => rfl, by simp⟩
  · refine ⟨Or.inr ⟨l, rest, rfl, rfl⟩, by simp, by simp, fun l2 rest2 h2 => ?_⟩
    injection h2 with h3
    injection h3 with h4 h5
    subst h4
    rfl

/-- Witness for C3: a detector raising on every input (as `detect_langs`
does on an empty string) yields the sentinel. -/
theorem c3_detect_language_total_witness :
    detect_language (fun _ => .error ()) "" = "UNKNOWN" :=
  (c3_detect_language_total (fun _ => .error ()) "").2.1 () rfl

/-- C4: if loading either artifact file fails, `load_model` raises
(propagates the failure instead of returning partial state), and a run of
the app with a failing loader halts at startup: its outcome is
`haltedLoad` and no verdict is ever produced. -/
theorem c4_load_failure_halts {Obj Vec : Type}
    (joblib_load : String → Except String Obj) (base : String) (e : String)
    (asModel : Obj → Model Vec) (asVectorizer : Obj → Vectorizer Vec)
    (detect_langs : String → Except Unit (List LangProb))
    (analyze_btn : Bool) (text_input : String) :
    (joblib_load (model_path base) = .error e →
      load_model joblib_load base = .error e) ∧
    (∀ mObj, joblib_load (model_path base) = .ok mObj →
      joblib_load (vectorizer_path base) = .error e →
      load_model joblib_load base = .error e) ∧
    (load_model joblib_load base = .error e →
      run_app joblib_load base asModel asVectorizer detect_langs analyze_btn
          text_input = .haltedLoad e ∧
      outcomeVerdict (run_app joblib_load base asModel asVectorizer detect_langs
          analyze_btn text_input) = none) := by
  refine ⟨fun h => ?_, fun mObj h1 h2 => ?_, fun h => ?_⟩
  · unfold load_model
    rw [h]
    rfl
  · unfold load_model
    rw [h1]
    show (joblib_load (vectorizer_path base)).bind _ = _
    rw [h2]
    rfl
  · unfold run_app outcomeVerdict
    rw [h]
    exact ⟨rfl, rfl⟩

/-- Witness for C4, with a loader failing on every path. -/
theorem c4_load_failure_halts_witness :
    run_app (fun _ => (.error "missing" : Except String Unit)) "."
        (fun _ => unitModel 0 0) (fun _ => unitVectorizer)
        (fun _ => .error ()) true "hi" = .haltedLoad "missing" :=
  ((c4_load_failure_halts (fun _ => (.error "missing" : Except String Unit)) "."
      "missing" (fun _ => unitModel 0 0) (fun _ => unitVectorizer)
      (fun _ => .error ()) true "hi").2.2 rfl).1

/-- C5: the language-detection result never influences the verdict: two
runs of the app on the same text and the same artifacts, differing only in
the language detector (any codes or failures), produce the same verdict
component; the verdict is a function of text and artifacts only. -/
theorem c5_language_never_influences_verdict {Obj Vec : Type}
    (joblib_load : String → Except String Obj) (base : String)
    (asModel : Obj → Model Vec) (asVectorizer : Obj → Vectorizer Vec)
    (d1 d2 : String → Except Unit (List LangProb))
    (analyze_btn : Bool) (text_input : String) :
    outcomeVerdict (run_app joblib_load base asModel asVectorizer d1
        analyze_btn text_input) =
      outcomeVerdict (run_app joblib_load base asModel asVectorizer d2
        analyze_btn text_input) := by
  rcases hl : load_model joblib_load base with e | ⟨mObj, vObj⟩
  · simp [run_app, hl]
  · by_cases hb : (analyze_btn && (strip text_input != [])) = true <;>
      simp [run_app, hl, hb, outcomeVerdict]

/-- C6: a transform/predict failure inside the scorer propagates uncaught
(the exact raised error is returned for that request), and it leaves the
cached artifact pair unchanged, so a subsequent request against the same
cache can still succeed. -/
theorem c6_scoring_error_isolated {Obj Vec : Type}
    (joblib_load : String → Except String Obj) (base : String)
    (asModel : Obj → Model Vec) (asVectorizer : Obj → Vectorizer Vec)
    (a : Obj × Obj) (t t2 : String) (e : String) (X : Vec) (p : ℚ) (pred : ℤ)
    (hfail : (asVectorizer a.2).transform t = .error e)
    (hX : (asVectorizer a.2).transform t2 = .ok X)
    (hp : (asModel a.1).predict_proba X = .ok p)
    (hpred : (asModel a.1).predict X = .ok pred) :
    handle_request joblib_load base asModel asVectorizer t (some a) =
      (.error e, some a) ∧
    handle_request joblib_load base asModel asVectorizer t2 (some a) =
      (.ok ⟨pred != 0, p, severityOf p⟩, some a) ∧
    (∀ (m : Model Vec) (vz : Vectorizer Vec) (s e2 : String),
      vz.transform s = .error e2 → analyze_text s m vz = .error e2) ∧
    (∀ (m : Model Vec) (vz : Vectorizer Vec) (s : String) (Y : Vec) (e2 : String),
      vz.transform s = .ok Y → m.predict_proba Y = .error e2 →
      analyze_text s m vz = .error e2) ∧
    (∀ (m : Model Vec) (vz : Vectorizer Vec) (s : String) (Y : Vec) (q : ℚ)
      (e2 : String), vz.transform s = .ok Y → m.predict_proba Y = .ok q →
      m.predict Y = .error e2 → analyze_text s m vz = .error e2) := by
  obtain ⟨mObj, vObj⟩ := a
  refine ⟨?_, ?_, fun m vz s e2 h => analyze_text_transform_error m vz s e2 h,
    fun m vz s Y e2 h1 h2 => analyze_text_proba_error m vz s Y e2 h1 h2,
    fun m vz s Y q e2 h1 h2 h3 => analyze_text_predict_error m vz s Y q e2 h1 h2 h3⟩
  · show (analyze_text t (asModel mObj) (asVectorizer vObj),
      (some (mObj, vObj) : ArtifactCache Obj)) = _
    rw [analyze_text_transform_error (asModel mObj) (asVectorizer vObj) t e hfail]
  · show (analyze_text t2 (asModel mObj) (asVectorizer vObj),
      (some (mObj, vObj) : ArtifactCache Obj)) = _
    rw [analyze_text_ok_of (asModel mObj) (asVectorizer vObj) t2 X p pred hX hp hpred]

/-- A vectorizer raising exactly on the text "bad", to exhibit a
per-request scoring failure. -/
def failingVectorizer : Vectorizer Unit :=
  { transform := fun s => if s = "bad" then .error "boom" else .ok () }

/-- Witness for C6: the request on "bad" fails with the raised error and
leaves the cache intact; the next request on "good" succeeds. -/
theorem c6_scoring_error_isolated_witness :
    handle_request (fun _ => (.ok () : Except String Unit)) "."
        (fun _ => unitModel (3/10) 0) (fun _ => failingVectorizer) "bad"
        (some ((), ())) = (.error "boom", some ((), ())) ∧
    handle_request (fun _ => (.ok () : Except String Unit)) "."
        (fun _ => unitModel (3/10) 0) (fun _ => failingVectorizer) "good"
        (some ((), ())) = (.ok ⟨(0:ℤ) != 0, 3/10, severityOf (3/10)⟩, some ((), ())) := by
  have h := c6_scoring_error_isolated (fun _ => (.ok () : Except String Unit)) "."
    (fun _ => unitModel (3/10) 0) (fun _ => failingVectorizer) ((), ())
    "bad" "good" "boom" () (3/10) 0 (by simp [failingVectorizer])
    (by simp [failingVectorizer]) rfl rfl
  exact ⟨h.1, h.2.1⟩

/-- C7: when the model's probability outputs are probabilities (lie in
[0, 1]), every confidence the scorer returns lies in the closed interval
[0, 1]. -/
theorem c7_confidence_in_unit_interval {Vec : Type} (m : Model Vec)
    (v : Vectorizer Vec) (t : String) (verdict : Verdict)
    (hproba : ∀ X p, m.predict_proba X = .ok p → 0 ≤ p ∧ p ≤ 1)
    (h : analyze_text t m v = .ok verdict) :
    0 ≤ verdict.confidence ∧ verdict.confidence ≤ 1 := by
  obtain ⟨X, p, pred, hX, hp, hpred, hv⟩ := analyze_text_ok m v t verdict h
  subst hv
  exact hproba X p hp

/-- Witness for C7, at the constant model assigning probability 7/10. -/
theorem c7_confidence_in_unit_interval_witness :
    (0:ℚ) ≤ (Verdict.mk ((1:ℤ) != 0) (7/10) (severityOf (7/10))).confidence ∧
      (Verdict.mk ((1:ℤ) != 0) (7/10) (severityOf (7/10))).confidence ≤ 1 :=
  c7_confidence_in_unit_interval (unitModel (7/10) 1) unitVectorizer "t"
    (Verdict.mk ((1:ℤ) != 0) (7/10) (severityOf (7/10)))
    (fun X p hp => by
      rw [← Except.ok.inj hp]
      norm_num) rfl

/-- C8: the derived text statistics are word count (whitespace-separated
tokens), character count (string length), has-uppercase (some character is
upper case) and has-special-char (some character is in the fixed class
[!?@#$%^&*]); for the input "Hello World!" they are 2, 12, true, true. -/
theorem c8_text_statistics :
    (∀ t : String, hasCaps t = true ↔ ∃ c ∈ t.data, c.isUpper = true) ∧
    (∀ t : String, hasSpecial t = true ↔ ∃ c ∈ t.data, c ∈ specialChars) ∧
    (∀ t : String, charCount t = t.length) ∧
    textStats "Hello World!" = ⟨2, 12, true, true⟩ := by
  refine ⟨fun t => ?_, fun t => ?_, fun t => rfl, by decide⟩
  · simp [hasCaps, List.any_eq_true]
  · simp [hasSpecial, List.any_eq_true]

/-- C9: with the analyze trigger pressed on an input that strips to
nothing, the app shows the empty-input warning: the outcome is independent
of the language detector and of the artifacts (neither is invoked), and it
equals `warnEmpty` whenever loading succeeded. -/
theorem c9_blank_input_guard {Obj Vec Vec2 : Type}
    (joblib_load : String → Except String Obj) (base : String)
    (asModel : Obj → Model Vec) (asVectorizer : Obj → Vectorizer Vec)
    (asModel2 : Obj → Model Vec2) (asVectorizer2 : Obj → Vectorizer Vec2)
    (d d2 : String → Except Unit (List LangProb)) (text_input : String)
    (hblank : strip text_input = []) :
    run_app joblib_load base asModel asVectorizer d true text_input =
      run_app joblib_load base asModel2 asVectorizer2 d2 true text_input ∧
    (∀ a, load_model joblib_load base = .ok a →
      run_app joblib_load base asModel asVectorizer d true text_input =
        .warnEmpty) := by
  constructor
  · rcases hl : load_model joblib_load base with e | ⟨mObj, vObj⟩ <;>
      simp [run_app, hl, hblank]
  · rintro ⟨mObj, vObj⟩ hl
    simp [run_app, hl, hblank]

/-- Witness for C9 at the whitespace-only input "   ". -/
theorem c9_blank_input_guard_witness :
    run_app (fun _ => (.ok () : Except String Unit)) "."
        (fun _ => unitModel 0 0) (fun _ => unitVectorizer)
        (fun _ => .error ()) true "   " = .warnEmpty :=
  (c9_blank_input_guard (fun _ => (.ok () : Except String Unit)) "."
      (fun _ => unitModel 0 0) (fun _ => unitVectorizer)
      (fun _ => unitModel 0 0) (fun _ => unitVectorizer)
      (fun _ => .error ()) (fun _ => .error ()) "   " (by decide)).2
    ((), ()) rfl

/-- C10: a verdict with `is_toxic = false` renders the safe box whatever
the severity is; when `is_toxic = true`, the red box is chosen exactly when
severity is HIGH, and the warning box otherwise. -/
theorem c10_safe_box_ignores_severity (verdict : Verdict) :
    (verdict.is_toxic = false → mainBox verdict = .safeBox) ∧
    (verdict.is_toxic = true →
      ((mainBox verdict = .toxicHigh verdict.severity ↔
        verdict.severity = "HIGH") ∧
       (verdict.severity ≠ "HIGH" →
        mainBox verdict = .warningBox verdict.severity))) := by
  obtain ⟨tox, conf, sev⟩ := verdict
  constructor
  · rintro rfl
    rfl
  · rintro rfl
    by_cases hs : sev = "HIGH" <;> simp [mainBox, hs]

/-- Witness for C10: a non-toxic verdict whose severity is HIGH still
renders the safe box. -/
theorem c10_safe_box_ignores_severity_witness :
    mainBox ⟨false, 9/10, "HIGH"⟩ = .safeBox :=
  (c10_safe_box_ignores_severity ⟨false, 9/10, "HIGH"⟩).1 rfl

end MuToXGuard
